import Mathlib

/-!
Verification of `src/include/tabletop/object/tabletop_object_detector.h`
(class `TabletopObjectRecognizer`, namespace `tabletop_object_detector`).

The C++ core is embedded shallowly:

* `double`/`float` values (scores, coordinates, thresholds, confidences) are
  modelled as `ℚ`;
* the external fitting capability
  `ExhaustiveFitDetector::fitBestModels(cluster, numModels, searchIndex, cutoff)`
  is an opaque function parameter of type `Fitter`;
* the per-cluster `cv::flann::Index` built over a cluster's points is opaque to
  this file: it is modelled by the list of points it was built from
  (`buildSearchIndex`), which is all the surrounding code can observe;
* the in-place mutation of `clusters`, `raw_fit_results` and
  `cluster_model_indices` inside `objectDetection` is modelled by explicit
  state passing (`DetectionState`);
* the `while` merge loop is modelled with a fuel parameter; `mergeFuel`
  strictly dominates the loop's termination measure, so the fuel never
  runs out (`measure_lt_mergeFuel` together with the loop lemmas).
-/

namespace Tabletop

/-- A 3-D point (`cv::Vec3f`). -/
structure Vec3 where
  x : ℚ
  y : ℚ
  z : ℚ
deriving DecidableEq, Repr, Inhabited

/-- `geometry_msgs::Point`: the position part of a pose. -/
structure Point3 where
  x : ℚ
  y : ℚ
  z : ℚ
deriving DecidableEq, Repr, Inhabited

/-- `geometry_msgs::Quaternion`: the orientation part of a pose. -/
structure Quat4 where
  x : ℚ
  y : ℚ
  z : ℚ
  w : ℚ
deriving DecidableEq, Repr, Inhabited

/-- `geometry_msgs::Pose`: position plus orientation. -/
structure Pose where
  position : Point3
  orientation : Quat4
deriving DecidableEq, Repr, Inhabited

/-- `ModelFitInfo`: one candidate fit (model identity, raw score, pose). -/
structure ModelFitInfo where
  model_id : ℤ
  score : ℚ
  pose : Pose
deriving DecidableEq, Repr, Inhabited

/-- `ModelFitInfo::getScore`. -/
abbrev ModelFitInfo.getScore (m : ModelFitInfo) : ℚ := m.score

/-- `ModelFitInfo::getModelId`. -/
abbrev ModelFitInfo.getModelId (m : ModelFitInfo) : ℤ := m.model_id

/-- `ModelFitInfo::getPose`. -/
abbrev ModelFitInfo.getPose (m : ModelFitInfo) : Pose := m.pose

/-- A point cluster: `std::vector<cv::Vec3f>`. -/
abbrev PointCloud := List Vec3

/-- `TabletopObjectRecognizer::TabletopResult`. -/
structure TabletopResult where
  pose_ : Pose
  confidence_ : ℚ
  object_id_ : ℤ
  cloud_ : PointCloud
  cloud_index_ : ℕ
deriving DecidableEq, Repr, Inhabited

/-- The opaque fitting capability
`fitBestModels(cluster, numModels, searchIndex, confidenceCutoff)`.
The spatial-index argument is represented by the point list the index was
built over. -/
abbrev Fitter := PointCloud → ℕ → PointCloud → ℚ → List ModelFitInfo

/-- `cv::flann::Index(features, KDTreeIndexParams())` built over one cluster:
opaque to the detector, modelled by the points it was built from. -/
def buildSearchIndex (pts : PointCloud) : PointCloud := pts

/-- `int num_models = 1;` in `objectDetection`. -/
def numModels : ℕ := 1

/-- `fit_merge_threshold_ = 0.02;` set in the constructor and never changed
(the class has no setter for it). -/
def fit_merge_threshold_ : ℚ := 0.02

/-- `getConfidence(score) = 1.0 - (1.0 - score) * (1.0 - score)`. -/
def getConfidence (score : ℚ) : ℚ :=
  1 - (1 - score) * (1 - score)

/-- The radicand computed by `fitDistance`:
`dx*dx + dy*dy` with `dx`,`dy` the differences of the two poses' planar
(x,y) position coordinates; `fitDistance` itself returns `sqrt` of this. -/
def fitDistanceSq (m1 m2 : ModelFitInfo) : ℚ :=
  let dx := m1.getPose.position.x - m2.getPose.position.x
  let dy := m1.getPose.position.y - m2.getPose.position.y
  dx * dx + dy * dy

/-- The merge test `fitDistance(m1, m2) < thr` of the inner merge scan,
expressed without square roots: for any real threshold `thr`,
`sqrt d < thr` (with `d ≥ 0`) holds iff `0 < thr ∧ d < thr * thr`.
The equivalence with the `Real.sqrt` form is proved below. -/
def fitCloseEnough (m1 m2 : ModelFitInfo) (thr : ℚ) : Prop :=
  0 < thr ∧ fitDistanceSq m1 m2 < thr * thr

instance (m1 m2 : ModelFitInfo) (thr : ℚ) : Decidable (fitCloseEnough m1 m2 thr) :=
  inferInstanceAs (Decidable (And _ _))

/-- The mutable state of one `objectDetection` call: the (possibly merged)
clusters, the per-cluster raw fit results, and the representative indices
`cluster_model_indices`. -/
structure DetectionState where
  clusters : List PointCloud
  raw_fit_results : List (List ModelFitInfo)
  cluster_model_indices : List ℕ
deriving DecidableEq, Repr

/-- `cluster_model_indices[k]` (out-of-range reads default to `k`, which
never happens on the indices the code actually uses). -/
def DetectionState.rep (s : DetectionState) (k : ℕ) : ℕ :=
  s.cluster_model_indices.getD k k

/-- `raw_fit_results[k]` (out-of-range reads default to the empty list). -/
def DetectionState.fits (s : DetectionState) (k : ℕ) : List ModelFitInfo :=
  s.raw_fit_results.getD k []

/-- The acceptance condition of the inner merge scan for inner index `j`
(`i`'s top fit being `fi`): `cluster_model_indices[j] == j`, a non-empty
`raw_fit_results[j]`, and
`fitDistance(raw_fit_results[i][0], raw_fit_results[j][0]) < thr`. -/
def qualifiesForMerge (s : DetectionState) (thr : ℚ) (fi : ModelFitInfo)
    (j : ℕ) : Prop :=
  s.rep j = j ∧ s.fits j ≠ [] ∧ fitCloseEnough fi ((s.fits j).headI) thr

instance (s : DetectionState) (thr : ℚ) (fi : ModelFitInfo) (j : ℕ) :
    Decidable (qualifiesForMerge s thr fi j) :=
  inferInstanceAs (Decidable (And _ _))

/-- The inner merge scan of `objectDetection`: starting at index `j`
(`steps` indices remain before `clusters.size()`), return the first `j`
satisfying `qualifiesForMerge`; `none` if the scan runs off the end. -/
def findMergeCandidate (s : DetectionState) (thr : ℚ) (fi : ModelFitInfo) :
    ℕ → ℕ → Option ℕ
  | 0, _ => none
  | steps + 1, j =>
    if qualifiesForMerge s thr fi j then
      some j
    else
      findMergeCandidate s thr fi steps (j + 1)

/-- The body of the merge branch of `objectDetection`: append cluster `j`'s
points to cluster `i`, clear cluster `j`'s fit result, set
`cluster_model_indices[j] = i`, and refit cluster `i` on its enlarged point
set reusing `search[i]` (the index built over cluster `i`'s ORIGINAL points,
passed in through `searches`; it is not rebuilt). -/
def mergeInto (fitter : Fitter) (cutoff : ℚ) (searches : List PointCloud)
    (s : DetectionState) (i j : ℕ) : DetectionState :=
  let merged := s.clusters.getD i [] ++ s.clusters.getD j []
  { clusters := s.clusters.set i merged
    raw_fit_results :=
      (s.raw_fit_results.set j []).set i
        (fitter merged (max 1 numModels) (searches.getD i []) cutoff)
    cluster_model_indices := s.cluster_model_indices.set j i }

/-- The `while (i < clusters.size())` merge loop of `objectDetection`,
with explicit fuel (the fuel supplied by `postMergeState` strictly dominates
the loop's termination measure, so it never runs out).
At outer index `i`: skip `i` if it was merged away or has no fits; otherwise
scan `j` upward from `i+1`; on a hit, merge `j` into `i` and repeat WITHOUT
advancing `i` (the next iteration rescans from `i+1`); otherwise advance. -/
def mergeLoop (fitter : Fitter) (cutoff thr : ℚ) (searches : List PointCloud) :
    ℕ → ℕ → DetectionState → DetectionState
  | 0, _, s => s
  | fuel + 1, i, s =>
    if i < s.clusters.length then
      if s.rep i ≠ i ∨ s.fits i = [] then
        mergeLoop fitter cutoff thr searches fuel (i + 1) s
      else
        match findMergeCandidate s thr ((s.fits i).headI)
            (s.clusters.length - (i + 1)) (i + 1) with
        | none => mergeLoop fitter cutoff thr searches fuel (i + 1) s
        | some j =>
          mergeLoop fitter cutoff thr searches fuel i
            (mergeInto fitter cutoff searches s i j)
    else s

/-- The fit-dispatch phase: one `fitBestModels` invocation per cluster with
candidate count `std::max(1, num_models)`, each over the index built from
that cluster's own points; results joined in original cluster order. -/
def dispatchFits (fitter : Fitter) (cutoff : ℚ) (clusters : List PointCloud) :
    List (List ModelFitInfo) :=
  clusters.map fun c => fitter c (max 1 numModels) (buildSearchIndex c) cutoff

/-- The state right after the dispatch/join phase:
`cluster_model_indices[i] = i` for every `i`. -/
def initState (fitter : Fitter) (cutoff : ℚ) (clusters : List PointCloud) :
    DetectionState :=
  { clusters := clusters
    raw_fit_results := dispatchFits fitter cutoff clusters
    cluster_model_indices := List.range clusters.length }

/-- Fuel that strictly dominates the merge loop's termination measure
(`n * survivors + (n - i) ≤ n * n + n`). -/
def mergeFuel (n : ℕ) : ℕ := n * n + n + 1

/-- The detection state after the (optional) merge phase. -/
def postMergeState (fitter : Fitter) (cutoff : ℚ) (perform_fit_merge : Bool)
    (clusters : List PointCloud) : DetectionState :=
  let s0 := initState fitter cutoff clusters
  if perform_fit_merge then
    mergeLoop fitter cutoff fit_merge_threshold_ (clusters.map buildSearchIndex)
      (mergeFuel clusters.length) 0 s0
  else s0

/-- The final assembly loop of `objectDetection`: for each
`i < cluster_model_indices.size()` with `cluster_model_indices[i] == i` and a
non-empty fit result, compute `confidence = getConfidence(score)` of the top
candidate; skip if `confidence < cutoff`; otherwise emit a `TabletopResult`
with that candidate's model id and pose, the confidence, cluster `i`'s
current point set, and `i` as `cloud_index_`. -/
def assembleEntry (cutoff : ℚ) (s : DetectionState) (i : ℕ) :
    Option TabletopResult :=
  if s.rep i ≠ i ∨ s.fits i = [] then none
  else
    let confidence := getConfidence ((s.fits i).headI).getScore
    if confidence < cutoff then none
    else
      some { pose_ := ((s.fits i).headI).getPose
             confidence_ := confidence
             object_id_ := ((s.fits i).headI).getModelId
             cloud_ := s.clusters.getD i []
             cloud_index_ := i }

/-- The list of all emitted results, in ascending index order. -/
def assembleResults (cutoff : ℚ) (s : DetectionState) : List TabletopResult :=
  (List.range s.cluster_model_indices.length).filterMap (assembleEntry cutoff s)

/-- `TabletopObjectRecognizer::objectDetection(clusters, confidence_cutoff,
perform_fit_merge, results)`. The C++ mutates `clusters` and appends to
`results` in place; here the call returns the new `results` contents and the
final `clusters` contents as a pair. -/
def objectDetection (fitter : Fitter) (clusters : List PointCloud)
    (confidence_cutoff : ℚ) (perform_fit_merge : Bool)
    (results : List TabletopResult) : List TabletopResult × List PointCloud :=
  let s := postMergeState fitter confidence_cutoff perform_fit_merge clusters
  (results ++ assembleResults confidence_cutoff s, s.clusters)

/-! ### The merge pass as worded by the specification (claim C2)

Claim C2 describes the merge pass with an explicit inner-scan cursor: after a
merge at inner index `j`, the inner scan "continues from `j+1` without
advancing `i`". The two definitions below spell out that description;
`mergeLoopResume` resumes the scan at `j+1` as the claim words it, and
`mergeLoopRestart` is the same description amended to restart the scan at
`i+1`. They are compared against the source-translated `mergeLoop` in the
theorems for claim C2. -/

/-- Claim C2's wording of the merge pass, with the merge operations spelled
out (append cluster `j`'s points to cluster `i`, clear cluster `j`'s fit
result, set `representative[j] = i`, re-run the Fitter on the enlarged
cluster `i` reusing cluster `i`'s original spatial index) and the inner scan
CONTINUING FROM `j+1` after a merge, without advancing `i`. `jcur` is the
inner-scan cursor; each fresh outer index `i` starts its scan at `i+1`. -/
def mergeLoopResume (fitter : Fitter) (cutoff thr : ℚ)
    (searches : List PointCloud) : ℕ → ℕ → ℕ → DetectionState → DetectionState
  | 0, _, _, s => s
  | fuel + 1, i, jcur, s =>
    if i < s.clusters.length then
      if s.rep i ≠ i ∨ s.fits i = [] then
        mergeLoopResume fitter cutoff thr searches fuel (i + 1) (i + 2) s
      else
        match findMergeCandidate s thr ((s.fits i).headI)
            (s.clusters.length - jcur) jcur with
        | none => mergeLoopResume fitter cutoff thr searches fuel (i + 1) (i + 2) s
        | some j =>
          let enlarged := s.clusters.getD i [] ++ s.clusters.getD j []
          mergeLoopResume fitter cutoff thr searches fuel i (j + 1)
            { clusters := s.clusters.set i enlarged
              raw_fit_results := (s.raw_fit_results.set j []).set i
                (fitter enlarged (max 1 numModels) (searches.getD i []) cutoff)
              cluster_model_indices := s.cluster_model_indices.set j i }
    else s

/-- The amended wording of claim C2: identical to `mergeLoopResume` except
that after a merge the inner scan RESTARTS FROM `i+1` (still without
advancing `i`), so inner indices already scanned are reconsidered against
the refit cluster `i`. -/
def mergeLoopRestart (fitter : Fitter) (cutoff thr : ℚ)
    (searches : List PointCloud) : ℕ → ℕ → ℕ → DetectionState → DetectionState
  | 0, _, _, s => s
  | fuel + 1, i, jcur, s =>
    if i < s.clusters.length then
      if s.rep i ≠ i ∨ s.fits i = [] then
        mergeLoopRestart fitter cutoff thr searches fuel (i + 1) (i + 2) s
      else
        match findMergeCandidate s thr ((s.fits i).headI)
            (s.clusters.length - jcur) jcur with
        | none => mergeLoopRestart fitter cutoff thr searches fuel (i + 1) (i + 2) s
        | some j =>
          let enlarged := s.clusters.getD i [] ++ s.clusters.getD j []
          mergeLoopRestart fitter cutoff thr searches fuel i (i + 1)
            { clusters := s.clusters.set i enlarged
              raw_fit_results := (s.raw_fit_results.set j []).set i
                (fitter enlarged (max 1 numModels) (searches.getD i []) cutoff)
              cluster_model_indices := s.cluster_model_indices.set j i }
    else s

/-! ### The call with a fallible Fitter (claim C3)

`fitBestModels` runs inside `std::async` tasks; if an invocation throws, the
exception is stored in its `std::future` and re-thrown by `future.get()` in
the join loop, which aborts `objectDetection` (there is no try/catch in the
source). A throwing invocation is modelled by a fitter returning
`Except.error`; `objectDetectionE` is `objectDetection` over such a fitter,
with the first stored exception (in join order, i.e. ascending cluster
index) propagating out of the call, and an error of the direct refit call in
the merge pass likewise propagating. -/

/-- A fitting capability whose invocations may fail (throw). -/
abbrev FitterE := PointCloud → ℕ → PointCloud → ℚ → Except ℕ (List ModelFitInfo)

/-- The dispatch phase with a fallible fitter: the outcome stored in each
cluster's future. -/
def dispatchFitsE (fitter : FitterE) (cutoff : ℚ) (clusters : List PointCloud) :
    List (Except ℕ (List ModelFitInfo)) :=
  clusters.map fun c => fitter c (max 1 numModels) (buildSearchIndex c) cutoff

/-- The join loop `raw_fit_results[i] = future_results[i].get()`: the first
stored exception (lowest cluster index) is re-thrown and aborts the call. -/
def joinFutureResults :
    List (Except ℕ (List ModelFitInfo)) → Except ℕ (List (List ModelFitInfo))
  | [] => .ok []
  | .error e :: _ => .error e
  | .ok v :: rest =>
    match joinFutureResults rest with
    | .error e => .error e
    | .ok vs => .ok (v :: vs)

/-- The merge loop with a fallible fitter: an exception thrown by the refit
call propagates out. -/
def mergeLoopE (fitter : FitterE) (cutoff thr : ℚ) (searches : List PointCloud) :
    ℕ → ℕ → DetectionState → Except ℕ DetectionState
  | 0, _, s => .ok s
  | fuel + 1, i, s =>
    if i < s.clusters.length then
      if s.rep i ≠ i ∨ s.fits i = [] then
        mergeLoopE fitter cutoff thr searches fuel (i + 1) s
      else
        match findMergeCandidate s thr ((s.fits i).headI)
            (s.clusters.length - (i + 1)) (i + 1) with
        | none => mergeLoopE fitter cutoff thr searches fuel (i + 1) s
        | some j =>
          let merged := s.clusters.getD i [] ++ s.clusters.getD j []
          match fitter merged (max 1 numModels) (searches.getD i []) cutoff with
          | .error e => .error e
          | .ok fr =>
            mergeLoopE fitter cutoff thr searches fuel i
              { clusters := s.clusters.set i merged
                raw_fit_results := (s.raw_fit_results.set j []).set i fr
                cluster_model_indices := s.cluster_model_indices.set j i }
    else .ok s

/-- `objectDetection` over a fallible fitter: any stored or thrown fitter
exception aborts the call (the `results` container is left untouched and no
detection output is produced). -/
def objectDetectionE (fitter : FitterE) (clusters : List PointCloud)
    (confidence_cutoff : ℚ) (perform_fit_merge : Bool)
    (results : List TabletopResult) :
    Except ℕ (List TabletopResult × List PointCloud) :=
  match joinFutureResults (dispatchFitsE fitter confidence_cutoff clusters) with
  | .error e => .error e
  | .ok fits =>
    let s0 : DetectionState :=
      { clusters := clusters
        raw_fit_results := fits
        cluster_model_indices := List.range clusters.length }
    match (if perform_fit_merge then
        mergeLoopE fitter confidence_cutoff fit_merge_threshold_
          (clusters.map buildSearchIndex) (mergeFuel clusters.length) 0 s0
      else .ok s0) with
    | .error e => .error e
    | .ok s =>
      .ok (results ++ assembleResults confidence_cutoff s, s.clusters)

/-! ### Termination measure of the merge loop -/

/-- The number of clusters not yet merged away. -/
def unmergedCount (s : DetectionState) : ℕ :=
  ((List.range s.clusters.length).filter
    (fun k => s.cluster_model_indices.getD k k = k)).length

/-- Termination measure of the merge loop at outer index `i`: each merge
decreases it by at least `clusters.length ≥ 1`, each advance of `i` by 1. -/
def loopMeasure (s : DetectionState) (i : ℕ) : ℕ :=
  s.clusters.length * unmergedCount s + (s.clusters.length - i)

/-! ### Concrete data used in counterexamples and witnesses -/

/-- A one-point cluster at `(0,0,0)`. -/
def cloudA : PointCloud := [⟨0, 0, 0⟩]

/-- A one-point cluster at `(1,0,0)`. -/
def cloudB : PointCloud := [⟨1, 0, 0⟩]

/-- A one-point cluster at `(2,0,0)`. -/
def cloudC : PointCloud := [⟨2, 0, 0⟩]

/-- A pose at planar position `(x, 0)` with identity orientation. -/
def poseAt (x : ℚ) : Pose := ⟨⟨x, 0, 0⟩, ⟨0, 0, 0, 1⟩⟩

/-- A fitter whose refit of the cluster merged first moves its best pose:
cluster A fits at x=0, B at x=0.05, C at x=0.01; the merged cluster A++C
refits at x=0.045 (close to B), and (A++C)++B at x=0.045. -/
def fitterMoving : Fitter := fun pts _ _ _ =>
  if pts = cloudA then [⟨5, 9/10, poseAt 0⟩]
  else if pts = cloudB then [⟨5, 9/10, poseAt (5/100)⟩]
  else if pts = cloudC then [⟨5, 9/10, poseAt (1/100)⟩]
  else if pts = cloudA ++ cloudC then [⟨5, 9/10, poseAt (45/1000)⟩]
  else if pts = (cloudA ++ cloudC) ++ cloudB then [⟨5, 9/10, poseAt (45/1000)⟩]
  else []

/-- A fitter whose refit of a merged cluster jumps far away: cluster A fits
at x=0, B at x=0.01, C at x=0.015; the merged cluster A++B refits at x=1,
far from C. -/
def fitterJumping : Fitter := fun pts _ _ _ =>
  if pts = cloudA then [⟨5, 9/10, poseAt 0⟩]
  else if pts = cloudB then [⟨5, 9/10, poseAt (1/100)⟩]
  else if pts = cloudC then [⟨5, 9/10, poseAt (15/1000)⟩]
  else if pts = cloudA ++ cloudB then [⟨5, 9/10, poseAt 1⟩]
  else []

/-- A fallible fitter that throws on cluster A and succeeds elsewhere. -/
def fitterThrowing : FitterE := fun pts _ _ _ =>
  if pts = cloudA then .error 7 else .ok [⟨5, 9/10, poseAt 0⟩]

/-- A fitter returning, for every input, the same single candidate with
score 0 and pose at the origin. -/
def fitterConst : Fitter := fun _ _ _ _ => [⟨0, 0, poseAt 0⟩]

/-- A fit candidate with score 0 at the origin. -/
def fitW : ModelFitInfo := ⟨0, 0, poseAt 0⟩

/-- A small two-cluster detection state used to exercise the inner scan. -/
def stateW : DetectionState := ⟨[], [[fitW], [fitW]], [0, 1]⟩

/-! ## Helper lemmas -/

theorem getD_set_ne {α : Type} (l : List α) (j k : ℕ) (a d : α) (h : k ≠ j) :
    (l.set j a).getD k d = l.getD k d := by
  simp [List.getD_eq_getElem?_getD, List.getElem?_set_ne (Ne.symm h)]

theorem getD_set_self {α : Type} (l : List α) (j : ℕ) (a d : α)
    (h : j < l.length) : (l.set j a).getD j d = a := by
  simp [List.getD_eq_getElem?_getD, List.getElem?_set_self h]

theorem getD_set_cases {α : Type} (l : List α) (j k : ℕ) (a d : α) :
    (l.set j a).getD k d = a ∨ (l.set j a).getD k d = l.getD k d := by
  by_cases h : k = j
  · subst h
    by_cases hl : k < l.length
    · exact Or.inl (getD_set_self l k a d hl)
    · right
      rw [List.set_eq_of_length_le (not_lt.mp hl)]
  · exact Or.inr (getD_set_ne l j k a d h)

theorem getD_eq_default_of_le {α : Type} (l : List α) (k : ℕ) (d : α)
    (h : l.length ≤ k) : l.getD k d = d := by
  rw [List.getD_eq_getElem?_getD, List.getElem?_eq_none h]
  rfl

theorem getD_map_lt {α β : Type} (f : α → β) (l : List α) (k : ℕ) (d : β)
    (d' : α) (h : k < l.length) : (l.map f).getD k d = f (l.getD k d') := by
  simp [List.getD_eq_getElem?_getD, List.getElem?_eq_getElem, h,
    List.getElem?_eq_getElem (l := l.map f) (by simpa using h)]

theorem findMergeCandidate_some_spec (s : DetectionState) (thr : ℚ)
    (fi : ModelFitInfo) : ∀ steps start j,
    findMergeCandidate s thr fi steps start = some j →
    start ≤ j ∧ j < start + steps ∧ qualifiesForMerge s thr fi j
      ∧ ∀ k, start ≤ k → k < j → ¬ qualifiesForMerge s thr fi k := by
  intro steps
  induction steps with
  | zero => intro start j h; simp [findMergeCandidate] at h
  | succ steps ih =>
    intro start j h
    rw [findMergeCandidate] at h
    by_cases hq : qualifiesForMerge s thr fi start
    · rw [if_pos hq] at h
      obtain rfl : start = j := by simpa using h
      exact ⟨le_rfl, by omega, hq, fun k hk1 hk2 => absurd hk1 (by omega)⟩
    · rw [if_neg hq] at h
      obtain ⟨h1, h2, h3, h4⟩ := ih (start + 1) j h
      refine ⟨by omega, by omega, h3, fun k hk1 hk2 => ?_⟩
      rcases Nat.eq_or_lt_of_le hk1 with rfl | hlt
      · exact hq
      · exact h4 k hlt hk2

theorem findMergeCandidate_none_spec (s : DetectionState) (thr : ℚ)
    (fi : ModelFitInfo) : ∀ steps start,
    findMergeCandidate s thr fi steps start = none →
    ∀ k, start ≤ k → k < start + steps → ¬ qualifiesForMerge s thr fi k := by
  intro steps
  induction steps with
  | zero => intro start _ k hk1 hk2; omega
  | succ steps ih =>
    intro start h k hk1 hk2
    rw [findMergeCandidate] at h
    by_cases hq : qualifiesForMerge s thr fi start
    · rw [if_pos hq] at h; cases h
    · rw [if_neg hq] at h
      rcases Nat.eq_or_lt_of_le hk1 with rfl | hlt
      · exact hq
      · exact ih (start + 1) h k hlt (by omega)

theorem fitDistanceSq_eq (m1 m2 : ModelFitInfo) :
    fitDistanceSq m1 m2 =
      (m1.getPose.position.x - m2.getPose.position.x)
        * (m1.getPose.position.x - m2.getPose.position.x)
      + (m1.getPose.position.y - m2.getPose.position.y)
        * (m1.getPose.position.y - m2.getPose.position.y) := rfl

theorem fitDistanceSq_nonneg (m1 m2 : ModelFitInfo) : 0 ≤ fitDistanceSq m1 m2 := by
  rw [fitDistanceSq_eq]
  exact add_nonneg (mul_self_nonneg _) (mul_self_nonneg _)

theorem fitDistanceSq_comm (m1 m2 : ModelFitInfo) :
    fitDistanceSq m1 m2 = fitDistanceSq m2 m1 := by
  rw [fitDistanceSq_eq, fitDistanceSq_eq]
  ring

/-- The merge test only reads the two planar position coordinates. -/
theorem fitCloseEnough_congr {m1 m2 m1' m2' : ModelFitInfo} (thr : ℚ)
    (hx1 : m1.getPose.position.x = m1'.getPose.position.x)
    (hy1 : m1.getPose.position.y = m1'.getPose.position.y)
    (hx2 : m2.getPose.position.x = m2'.getPose.position.x)
    (hy2 : m2.getPose.position.y = m2'.getPose.position.y) :
    fitCloseEnough m1 m2 thr ↔ fitCloseEnough m1' m2' thr := by
  unfold fitCloseEnough
  rw [fitDistanceSq_eq, fitDistanceSq_eq, hx1, hy1, hx2, hy2]

theorem assembleEntry_eq_some (cutoff : ℚ) (s : DetectionState) (i : ℕ)
    (r : TabletopResult) :
    assembleEntry cutoff s i = some r ↔
      s.rep i = i ∧ s.fits i ≠ []
      ∧ cutoff ≤ getConfidence ((s.fits i).headI).getScore
      ∧ r = { pose_ := ((s.fits i).headI).getPose
              confidence_ := getConfidence ((s.fits i).headI).getScore
              object_id_ := ((s.fits i).headI).getModelId
              cloud_ := s.clusters.getD i []
              cloud_index_ := i } := by
  simp only [assembleEntry]
  split_ifs with h1 h2
  · constructor
    · intro h; cases h
    · rintro ⟨hr, hf, -, -⟩
      rcases h1 with h1 | h1
      · exact absurd hr h1
      · exact absurd h1 hf
  · push_neg at h1
    constructor
    · intro h; cases h
    · rintro ⟨-, -, hc, -⟩
      exact absurd h2 (not_lt.mpr hc)
  · push_neg at h1
    rw [Option.some_inj]
    constructor
    · intro h
      exact ⟨h1.1, h1.2, not_lt.mp h2, h.symm⟩
    · rintro ⟨-, -, -, rfl⟩
      rfl

theorem assembleEntry_index (cutoff : ℚ) (s : DetectionState) (i : ℕ)
    (r : TabletopResult) (h : assembleEntry cutoff s i = some r) :
    r.cloud_index_ = i := by
  rw [assembleEntry_eq_some] at h
  rw [h.2.2.2]

theorem mem_assembleResults (cutoff : ℚ) (s : DetectionState) (r : TabletopResult) :
    r ∈ assembleResults cutoff s ↔
      r.cloud_index_ < s.cluster_model_indices.length
      ∧ assembleEntry cutoff s r.cloud_index_ = some r := by
  unfold assembleResults
  rw [List.mem_filterMap]
  constructor
  · rintro ⟨a, ha, hr⟩
    have := assembleEntry_index cutoff s a r hr
    subst this
    exact ⟨List.mem_range.mp ha, hr⟩
  · rintro ⟨h1, h2⟩
    exact ⟨r.cloud_index_, List.mem_range.mpr h1, h2⟩

theorem pairwise_lt_map_filterMap {β : Type} (f : ℕ → Option β) (g : β → ℕ)
    (hfg : ∀ i r, f i = some r → g r = i) :
    ∀ l : List ℕ, List.Pairwise (· < ·) l →
      List.Pairwise (· < ·) ((l.filterMap f).map g) := by
  intro l
  induction l with
  | nil => intro _; simp
  | cons a l ih =>
    intro hp
    rw [List.pairwise_cons] at hp
    rw [List.filterMap_cons]
    cases hf : f a with
    | none => exact ih hp.2
    | some r =>
      rw [List.map_cons, List.pairwise_cons]
      refine ⟨?_, ih hp.2⟩
      intro y hy
      rw [List.mem_map] at hy
      obtain ⟨r2, hr2, rfl⟩ := hy
      rw [List.mem_filterMap] at hr2
      obtain ⟨b, hb, hfb⟩ := hr2
      rw [hfg a r hf, hfg b r2 hfb]
      exact hp.1 b hb

theorem mergeInto_clusters_length (f : Fitter) (cutoff : ℚ)
    (searches : List PointCloud) (s : DetectionState) (i j : ℕ) :
    (mergeInto f cutoff searches s i j).clusters.length = s.clusters.length := by
  simp [mergeInto]

theorem mergeInto_raw_length (f : Fitter) (cutoff : ℚ)
    (searches : List PointCloud) (s : DetectionState) (i j : ℕ) :
    (mergeInto f cutoff searches s i j).raw_fit_results.length
      = s.raw_fit_results.length := by
  simp [mergeInto]

theorem mergeInto_indices_length (f : Fitter) (cutoff : ℚ)
    (searches : List PointCloud) (s : DetectionState) (i j : ℕ) :
    (mergeInto f cutoff searches s i j).cluster_model_indices.length
      = s.cluster_model_indices.length := by
  simp [mergeInto]

theorem mergeInto_rep_ne (f : Fitter) (cutoff : ℚ) (searches : List PointCloud)
    (s : DetectionState) (i j k : ℕ) (h : k ≠ j) :
    (mergeInto f cutoff searches s i j).rep k = s.rep k := by
  unfold mergeInto DetectionState.rep
  exact getD_set_ne _ j k i k h

theorem mergeInto_rep_merged (f : Fitter) (cutoff : ℚ) (searches : List PointCloud)
    (s : DetectionState) (i j : ℕ) (h : j < s.cluster_model_indices.length) :
    (mergeInto f cutoff searches s i j).rep j = i := by
  unfold mergeInto DetectionState.rep
  exact getD_set_self _ j i j h

theorem mergeInto_fits_ne (f : Fitter) (cutoff : ℚ) (searches : List PointCloud)
    (s : DetectionState) (i j k : ℕ) (hki : k ≠ i) (hkj : k ≠ j) :
    (mergeInto f cutoff searches s i j).fits k = s.fits k := by
  unfold mergeInto DetectionState.fits
  rw [getD_set_ne _ i k _ [] hki, getD_set_ne _ j k _ [] hkj]

theorem mergeInto_fits_merged (f : Fitter) (cutoff : ℚ) (searches : List PointCloud)
    (s : DetectionState) (i j : ℕ) (hij : i ≠ j) :
    (mergeInto f cutoff searches s i j).fits j = [] := by
  unfold mergeInto DetectionState.fits
  rw [getD_set_ne _ i j _ [] (Ne.symm hij)]
  by_cases h : j < s.raw_fit_results.length
  · exact getD_set_self _ j [] [] h
  · rw [List.set_eq_of_length_le (not_lt.mp h)]
    exact getD_eq_default_of_le _ j [] (not_lt.mp h)

theorem mergeInto_fits_target (f : Fitter) (cutoff : ℚ) (searches : List PointCloud)
    (s : DetectionState) (i j : ℕ) (hi : i < s.raw_fit_results.length) :
    (mergeInto f cutoff searches s i j).fits i
      = f (s.clusters.getD i [] ++ s.clusters.getD j []) (max 1 numModels)
          (searches.getD i []) cutoff := by
  unfold mergeInto DetectionState.fits
  exact getD_set_self _ i _ [] (by simpa using hi)

theorem mergeInto_fits_cases (f : Fitter) (cutoff : ℚ) (searches : List PointCloud)
    (s : DetectionState) (i j k : ℕ) :
    (mergeInto f cutoff searches s i j).fits k
        = f (s.clusters.getD i [] ++ s.clusters.getD j []) (max 1 numModels)
            (searches.getD i []) cutoff
    ∨ (mergeInto f cutoff searches s i j).fits k = []
    ∨ (mergeInto f cutoff searches s i j).fits k = s.fits k := by
  unfold mergeInto DetectionState.fits
  rcases getD_set_cases (s.raw_fit_results.set j []) i k
      (f (s.clusters.getD i [] ++ s.clusters.getD j []) (max 1 numModels)
        (searches.getD i []) cutoff) [] with h | h
  · exact Or.inl h
  · rcases getD_set_cases s.raw_fit_results j k [] [] with h2 | h2
    · exact Or.inr (Or.inl (h.trans h2))
    · exact Or.inr (Or.inr (h.trans h2))

theorem fitCloseEnough_congr_pos {m1 m2 m1' m2' : ModelFitInfo} (thr : ℚ)
    (h1 : m1.getPose.position = m1'.getPose.position)
    (h2 : m2.getPose.position = m2'.getPose.position) :
    fitCloseEnough m1 m2 thr ↔ fitCloseEnough m1' m2' thr :=
  fitCloseEnough_congr thr (congrArg Point3.x h1) (congrArg Point3.y h1)
    (congrArg Point3.x h2) (congrArg Point3.y h2)

theorem fitCloseEnough_symm (m1 m2 : ModelFitInfo) (thr : ℚ) :
    fitCloseEnough m1 m2 thr ↔ fitCloseEnough m2 m1 thr := by
  unfold fitCloseEnough
  rw [fitDistanceSq_comm]

theorem countP_eq_succ_of_flip {p q : ℕ → Bool} {j : ℕ} :
    ∀ l : List ℕ, j ∈ l → l.Nodup → p j = true → q j = false →
      (∀ k, k ≠ j → q k = p k) → l.countP q + 1 = l.countP p := by
  intro l
  induction l with
  | nil => intro h; cases h
  | cons a l ih =>
    intro hj hnd hpj hqj hag
    rw [List.nodup_cons] at hnd
    rcases List.mem_cons.mp hj with rfl | hjl
    · have hcong : l.countP q = l.countP p := by
        apply List.countP_congr
        intro x hx
        have hxj : x ≠ j := fun hxj => hnd.1 (hxj ▸ hx)
        rw [hag x hxj]
      simp [List.countP_cons, hpj, hqj, hcong]
    · have haj : a ≠ j := fun haj => hnd.1 (haj ▸ hjl)
      have hih := ih hjl hnd.2 hpj hqj hag
      rw [List.countP_cons, List.countP_cons, hag a haj]
      omega

theorem mergeInto_indices_eq (f : Fitter) (cutoff : ℚ)
    (searches : List PointCloud) (s : DetectionState) (i j : ℕ) :
    (mergeInto f cutoff searches s i j).cluster_model_indices
      = s.cluster_model_indices.set j i := rfl

theorem unmergedCount_mergeInto (f : Fitter) (cutoff : ℚ)
    (searches : List PointCloud) (s : DetectionState) (i j : ℕ)
    (hj : j < s.clusters.length)
    (hlen : j < s.cluster_model_indices.length)
    (hrepj : s.rep j = j) (hij : i ≠ j) :
    unmergedCount (mergeInto f cutoff searches s i j) + 1 = unmergedCount s := by
  unfold unmergedCount
  rw [mergeInto_clusters_length, mergeInto_indices_eq,
    ← List.countP_eq_length_filter, ← List.countP_eq_length_filter]
  apply countP_eq_succ_of_flip (List.range s.clusters.length)
    (List.mem_range.mpr hj) (List.nodup_range _)
  · simpa [DetectionState.rep] using hrepj
  · simp [List.getElem?_set_self hlen, hij]
  · intro k hk
    simp [List.getElem?_set_ne (Ne.symm hk)]

theorem loopMeasure_succ_lt (s : DetectionState) (i : ℕ)
    (h : i < s.clusters.length) : loopMeasure s (i + 1) < loopMeasure s i := by
  unfold loopMeasure
  exact Nat.add_lt_add_left (by omega) _

theorem joinFutureResults_ok (fE : FitterE) (f : Fitter) (cutoff : ℚ)
    (hE : ∀ pts k idx c, fE pts k idx c = .ok (f pts k idx c)) :
    ∀ clusters : List PointCloud,
      joinFutureResults (dispatchFitsE fE cutoff clusters)
        = .ok (dispatchFits f cutoff clusters) := by
  intro clusters
  induction clusters with
  | nil => rfl
  | cons c rest ih =>
    simp only [dispatchFitsE, List.map_cons, hE] at *
    rw [joinFutureResults, ih]
    rfl

theorem joinFutureResults_error :
    ∀ l : List (Except ℕ (List ModelFitInfo)),
    (∃ e, Except.error e ∈ l) → ∃ e2, joinFutureResults l = .error e2 := by
  intro l
  induction l with
  | nil => rintro ⟨e, h⟩; cases h
  | cons a rest ih =>
    rintro ⟨e, h⟩
    cases a with
    | error e1 => exact ⟨e1, rfl⟩
    | ok v =>
      have hrest : Except.error e ∈ rest := by
        rcases List.mem_cons.mp h with h1 | h1
        · cases h1
        · exact h1
      obtain ⟨e2, h2⟩ := ih ⟨e, hrest⟩
      exact ⟨e2, by rw [joinFutureResults, h2]⟩

theorem mergeLoopE_ok (fE : FitterE) (f : Fitter) (cutoff thr : ℚ)
    (searches : List PointCloud)
    (hE : ∀ pts k idx c, fE pts k idx c = .ok (f pts k idx c)) :
    ∀ (fuel i : ℕ) (s : DetectionState),
      mergeLoopE fE cutoff thr searches fuel i s
        = .ok (mergeLoop f cutoff thr searches fuel i s) := by
  have hfE : fE = fun pts k idx c => .ok (f pts k idx c) := by
    funext pts k idx c
    exact hE pts k idx c
  subst hfE
  intro fuel
  induction fuel with
  | zero => intro i s; rfl
  | succ fuel ih =>
    intro i s
    rw [mergeLoop, mergeLoopE]
    by_cases hc : i < s.clusters.length
    · rw [if_pos hc, if_pos hc]
      by_cases hskip : s.rep i ≠ i ∨ s.fits i = []
      · rw [if_pos hskip, if_pos hskip]
        exact ih (i + 1) s
      · rw [if_neg hskip, if_neg hskip]
        cases hscan : findMergeCandidate s thr ((s.fits i).headI)
            (s.clusters.length - (i + 1)) (i + 1) with
        | none => exact ih (i + 1) s
        | some j => exact ih i (mergeInto f cutoff searches s i j)
    · rw [if_neg hc, if_neg hc]

/-- Core invariant argument for claim C5. For a fitter that never returns
an empty candidate list and whose top candidate's pose position depends
only on the spatial-index argument (so refits preserve positions), the
merge loop terminates within its fuel in a state where no two surviving
clusters' top-fit positions are within the threshold, top positions stay
canonical, and lengths are preserved. -/
theorem mergeLoop_separation (f : Fitter) (cutoff thr : ℚ)
    (searches : List PointCloud) (n : ℕ)
    (hne : ∀ pts k idx c, f pts k idx c ≠ [])
    (hpos : ∀ pts1 pts2 k1 k2 c1 c2 idx,
      ((f pts1 k1 idx c1).headI).getPose.position
        = ((f pts2 k2 idx c2).headI).getPose.position) :
    ∀ (fuel i : ℕ) (s : DetectionState),
      loopMeasure s i < fuel →
      s.clusters.length = n →
      s.raw_fit_results.length = n →
      s.cluster_model_indices.length = n →
      (∀ k, k < n → s.rep k = k → s.fits k ≠ []) →
      (∀ k, k < n → s.fits k ≠ [] →
        ((s.fits k).headI).getPose.position
          = ((f (searches.getD k []) (max 1 numModels) (searches.getD k [])
              cutoff).headI).getPose.position) →
      (∀ a b, a < i → a < b → b < n →
        s.rep a = a → s.rep b = b →
        ¬ fitCloseEnough ((s.fits a).headI) ((s.fits b).headI) thr) →
      (mergeLoop f cutoff thr searches fuel i s).cluster_model_indices.length = n
      ∧ (∀ k, k < n → (mergeLoop f cutoff thr searches fuel i s).fits k ≠ [] →
          (((mergeLoop f cutoff thr searches fuel i s).fits k).headI).getPose.position
            = ((f (searches.getD k []) (max 1 numModels) (searches.getD k [])
                cutoff).headI).getPose.position)
      ∧ (∀ a b, a < b → b < n →
          (mergeLoop f cutoff thr searches fuel i s).rep a = a →
          (mergeLoop f cutoff thr searches fuel i s).rep b = b →
          ¬ fitCloseEnough
            (((mergeLoop f cutoff thr searches fuel i s).fits a).headI)
            (((mergeLoop f cutoff thr searches fuel i s).fits b).headI) thr) := by
  intro fuel
  induction fuel with
  | zero =>
    intro i s hfuel
    exact absurd hfuel (Nat.not_lt_zero _)
  | succ fuel ih =>
    intro i s hfuel hlen1 hlen2 hlen3 hsurv hcan hpre
    rw [mergeLoop]
    by_cases hc : i < s.clusters.length
    · rw [if_pos hc]
      have hin : i < n := hlen1 ▸ hc
      have hfuel2 : loopMeasure s (i + 1) < fuel :=
        lt_of_lt_of_le (loopMeasure_succ_lt s i hc) (Nat.lt_succ_iff.mp hfuel)
      by_cases hskip : s.rep i ≠ i ∨ s.fits i = []
      · rw [if_pos hskip]
        have hri : ¬ s.rep i = i := by
          rcases hskip with h | h
          · exact h
          · intro hr
            exact hsurv i hin hr h
        refine ih (i + 1) s hfuel2 hlen1 hlen2 hlen3 hsurv hcan ?_
        intro a b ha hab hbn hra hrb
        rcases Nat.lt_succ_iff_lt_or_eq.mp ha with ha2 | rfl
        · exact hpre a b ha2 hab hbn hra hrb
        · exact absurd hra hri
      · rw [if_neg hskip]
        push_neg at hskip
        obtain ⟨hrepi, hfitsi⟩ := hskip
        cases hscan : findMergeCandidate s thr ((s.fits i).headI)
            (s.clusters.length - (i + 1)) (i + 1) with
        | none =>
          refine ih (i + 1) s hfuel2 hlen1 hlen2 hlen3 hsurv hcan ?_
          intro a b ha hab hbn hra hrb
          rcases Nat.lt_succ_iff_lt_or_eq.mp ha with ha2 | rfl
          · exact hpre a b ha2 hab hbn hra hrb
          · have hb1 : a + 1 ≤ b := hab
            have hb2 : b < a + 1 + (s.clusters.length - (a + 1)) := by omega
            have hnq := findMergeCandidate_none_spec s thr ((s.fits a).headI)
              (s.clusters.length - (a + 1)) (a + 1) hscan b hb1 hb2
            intro hclos
            exact hnq ⟨hrb, hsurv b hbn hrb, hclos⟩
        | some j =>
          obtain ⟨hj1, hj2, hqual, -⟩ :=
            findMergeCandidate_some_spec s thr _ _ _ j hscan
          have hjn : j < n := by omega
          have hij : i ≠ j := by omega
          have hlen1' : (mergeInto f cutoff searches s i j).clusters.length = n := by
            rw [mergeInto_clusters_length]; exact hlen1
          have hlen2' : (mergeInto f cutoff searches s i j).raw_fit_results.length
              = n := by
            rw [mergeInto_raw_length]; exact hlen2
          have hlen3' : (mergeInto f cutoff searches s i j).cluster_model_indices.length
              = n := by
            rw [mergeInto_indices_length]; exact hlen3
          have hU : unmergedCount (mergeInto f cutoff searches s i j) + 1
              = unmergedCount s :=
            unmergedCount_mergeInto f cutoff searches s i j (by omega) (by omega)
              hqual.1 hij
          have hmeas : loopMeasure (mergeInto f cutoff searches s i j) i < fuel := by
            have h1 : loopMeasure s i
                = s.clusters.length * unmergedCount (mergeInto f cutoff searches s i j)
                  + s.clusters.length + (s.clusters.length - i) := by
              unfold loopMeasure
              rw [← hU, Nat.mul_succ]
            have h2 : loopMeasure (mergeInto f cutoff searches s i j) i
                = s.clusters.length * unmergedCount (mergeInto f cutoff searches s i j)
                  + (s.clusters.length - i) := by
              unfold loopMeasure
              rw [mergeInto_clusters_length]
            omega
          have hfits_i : (mergeInto f cutoff searches s i j).fits i
              = f (s.clusters.getD i [] ++ s.clusters.getD j [])
                  (max 1 numModels) (searches.getD i []) cutoff :=
            mergeInto_fits_target f cutoff searches s i j (by omega)
          have hrepj' : (mergeInto f cutoff searches s i j).rep j = i :=
            mergeInto_rep_merged f cutoff searches s i j (by omega)
          have hsurv' : ∀ k, k < n → (mergeInto f cutoff searches s i j).rep k = k →
              (mergeInto f cutoff searches s i j).fits k ≠ [] := by
            intro k hk hr
            by_cases hkj : k = j
            · subst hkj
              rw [hrepj'] at hr
              exact absurd hr hij
            · have hrk : s.rep k = k := by
                rw [← mergeInto_rep_ne f cutoff searches s i j k hkj]
                exact hr
              by_cases hki : k = i
              · subst hki
                rw [hfits_i]
                exact hne _ _ _ _
              · rw [mergeInto_fits_ne f cutoff searches s i j k hki hkj]
                exact hsurv k hk hrk
          have hcan' : ∀ k, k < n → (mergeInto f cutoff searches s i j).fits k ≠ [] →
              (((mergeInto f cutoff searches s i j).fits k).headI).getPose.position
                = ((f (searches.getD k []) (max 1 numModels) (searches.getD k [])
                    cutoff).headI).getPose.position := by
            intro k hk hf
            by_cases hki : k = i
            · subst hki
              rw [hfits_i]
              exact hpos _ _ _ _ _ _ _
            · by_cases hkj : k = j
              · subst hkj
                rw [mergeInto_fits_merged f cutoff searches s i k hij] at hf
                exact absurd rfl hf
              · rw [mergeInto_fits_ne f cutoff searches s i j k hki hkj] at hf ⊢
                exact hcan k hk hf
          have hpre' : ∀ a b, a < i → a < b → b < n →
              (mergeInto f cutoff searches s i j).rep a = a →
              (mergeInto f cutoff searches s i j).rep b = b →
              ¬ fitCloseEnough (((mergeInto f cutoff searches s i j).fits a).headI)
                (((mergeInto f cutoff searches s i j).fits b).headI) thr := by
            intro a b ha hab hbn hra hrb
            have haj : a ≠ j := by omega
            have hai : a ≠ i := by omega
            have hra2 : s.rep a = a := by
              rw [← mergeInto_rep_ne f cutoff searches s i j a haj]
              exact hra
            have hfa : (mergeInto f cutoff searches s i j).fits a = s.fits a :=
              mergeInto_fits_ne f cutoff searches s i j a hai haj
            by_cases hbj : b = j
            · subst hbj
              rw [hrepj'] at hrb
              exact absurd hrb hij
            · have hrb2 : s.rep b = b := by
                rw [← mergeInto_rep_ne f cutoff searches s i j b hbj]
                exact hrb
              by_cases hbi : b = i
              · subst hbi
                have hfb : (mergeInto f cutoff searches s b j).fits b ≠ [] := by
                  rw [hfits_i]
                  exact hne _ _ _ _
                have hfa_ne : s.fits a ≠ [] := hsurv a (by omega) hra2
                have hpa : ((mergeInto f cutoff searches s b j).fits a).headI.getPose.position
                    = ((s.fits a).headI).getPose.position := by rw [hfa]
                have hpb : ((mergeInto f cutoff searches s b j).fits b).headI.getPose.position
                    = ((s.fits b).headI).getPose.position := by
                  rw [hcan' b hbn hfb, ← hcan b hbn hfitsi]
                intro hclos
                exact hpre a b ha hab hbn hra2 hrepi
                  ((fitCloseEnough_congr_pos thr hpa hpb).mp hclos)
              · have hfb : (mergeInto f cutoff searches s i j).fits b = s.fits b :=
                  mergeInto_fits_ne f cutoff searches s i j b hbi hbj
                rw [hfa, hfb]
                exact hpre a b ha hab hbn hra2 hrb2
          exact ih i (mergeInto f cutoff searches s i j) hmeas hlen1' hlen2' hlen3'
            hsurv' hcan' hpre'
    · rw [if_neg hc]
      have hni : n ≤ i := by omega
      refine ⟨hlen3, hcan, ?_⟩
      intro a b hab hbn hra hrb
      exact hpre a b (by omega) hab hbn hra hrb

/-! ## Claim theorems -/

/-- Claim C2 (amended): the source merge loop behaves exactly as the
claim-worded pass `mergeLoopRestart` in which a merge at inner index `j`
appends cluster `j`'s points to cluster `i`, clears cluster `j`'s fit
result, sets `representative[j] = i`, re-runs the Fitter on the enlarged
cluster `i` reusing cluster `i`'s original spatial index, and then
RESTARTS the inner scan from `i+1` without advancing `i`. -/
theorem spec_C2_amended (fitter : Fitter) (cutoff thr : ℚ)
    (searches : List PointCloud) : ∀ (fuel i : ℕ) (s : DetectionState),
    mergeLoop fitter cutoff thr searches fuel i s
      = mergeLoopRestart fitter cutoff thr searches fuel i (i + 1) s := by
  intro fuel
  induction fuel with
  | zero => intro i s; rfl
  | succ fuel ih =>
    intro i s
    rw [mergeLoop, mergeLoopRestart]
    by_cases hc : i < s.clusters.length
    · rw [if_pos hc, if_pos hc]
      by_cases hskip : s.rep i ≠ i ∨ s.fits i = []
      · rw [if_pos hskip, if_pos hskip]
        exact ih (i + 1) s
      · rw [if_neg hskip, if_neg hskip]
        cases hscan : findMergeCandidate s thr ((s.fits i).headI)
            (s.clusters.length - (i + 1)) (i + 1) with
        | none => exact ih (i + 1) s
        | some j => exact ih i (mergeInto fitter cutoff searches s i j)
    · rw [if_neg hc, if_neg hc]

/-- Counterexample to C2 as stated: with `fitterMoving` the source loop
re-merges cluster B after the refit of cluster A moved its pose (final
representatives `[0, 0, 0]`), whereas the claim-worded pass that continues
the inner scan from `j+1` leaves cluster B unmerged (final representatives
`[0, 1, 0]`). -/
theorem spec_C2_counterexample :
    (mergeLoop fitterMoving (1/2) fit_merge_threshold_ [cloudA, cloudB, cloudC]
        13 0 (initState fitterMoving (1/2) [cloudA, cloudB, cloudC])).cluster_model_indices
      = [0, 0, 0]
    ∧ (mergeLoopResume fitterMoving (1/2) fit_merge_threshold_ [cloudA, cloudB, cloudC]
        13 0 1 (initState fitterMoving (1/2) [cloudA, cloudB, cloudC])).cluster_model_indices
      = [0, 1, 0]
    ∧ mergeLoop fitterMoving (1/2) fit_merge_threshold_ [cloudA, cloudB, cloudC]
        13 0 (initState fitterMoving (1/2) [cloudA, cloudB, cloudC])
      ≠ mergeLoopResume fitterMoving (1/2) fit_merge_threshold_ [cloudA, cloudB, cloudC]
        13 0 1 (initState fitterMoving (1/2) [cloudA, cloudB, cloudC]) := by
  have h1 : (mergeLoop fitterMoving (1/2) fit_merge_threshold_ [cloudA, cloudB, cloudC]
      13 0 (initState fitterMoving (1/2) [cloudA, cloudB, cloudC])).cluster_model_indices
      = [0, 0, 0] := by
    norm_num [mergeLoop, initState, dispatchFits, findMergeCandidate, qualifiesForMerge,
      mergeInto, fitterMoving, cloudA, cloudB, cloudC, poseAt, DetectionState.rep,
      DetectionState.fits, fitCloseEnough, fitDistanceSq_eq, buildSearchIndex,
      numModels, fit_merge_threshold_]
    rfl
  have h2 : (mergeLoopResume fitterMoving (1/2) fit_merge_threshold_ [cloudA, cloudB, cloudC]
      13 0 1 (initState fitterMoving (1/2) [cloudA, cloudB, cloudC])).cluster_model_indices
      = [0, 1, 0] := by
    norm_num [mergeLoopResume, initState, dispatchFits, findMergeCandidate, qualifiesForMerge,
      fitterMoving, cloudA, cloudB, cloudC, poseAt, DetectionState.rep,
      DetectionState.fits, fitCloseEnough, fitDistanceSq_eq, buildSearchIndex,
      numModels, fit_merge_threshold_]
    rfl
  refine ⟨h1, h2, fun h => ?_⟩
  rw [h, h2] at h1
  cases h1

/-- Claim C3 (amended): a Fitter invocation that merely returns no
candidates is absorbed per-cluster (a non-throwing run of the fallible call
agrees with the pure pipeline, in which an empty candidate list only
suppresses that cluster's own output); but a THROWING invocation is not
mapped to an empty candidate list — the stored exception is re-thrown at
the join and aborts the whole call. -/
theorem spec_C3_amended (fE : FitterE) (f : Fitter) (clusters : List PointCloud)
    (cutoff : ℚ) (pm : Bool) (results : List TabletopResult) :
    ((∀ pts k idx c, fE pts k idx c = .ok (f pts k idx c)) →
      objectDetectionE fE clusters cutoff pm results
        = .ok (objectDetection f clusters cutoff pm results))
    ∧ (∀ (i e : ℕ), i < clusters.length →
        fE (clusters.getD i []) (max 1 numModels)
            (buildSearchIndex (clusters.getD i [])) cutoff = .error e →
        ∃ e2, objectDetectionE fE clusters cutoff pm results = .error e2) := by
  constructor
  · intro hE
    unfold objectDetectionE
    rw [joinFutureResults_ok fE f cutoff hE clusters]
    cases pm with
    | false => rfl
    | true =>
      simp only [if_true]
      rw [mergeLoopE_ok fE f cutoff fit_merge_threshold_
        (clusters.map buildSearchIndex) hE (mergeFuel clusters.length) 0
        { clusters := clusters
          raw_fit_results := dispatchFits f cutoff clusters
          cluster_model_indices := List.range clusters.length }]
      rfl
  · intro i e hi hfe
    have hel : Except.error e ∈ dispatchFitsE fE cutoff clusters := by
      have hlen : i < (dispatchFitsE fE cutoff clusters).length := by
        simpa [dispatchFitsE] using hi
      have hgetd : (dispatchFitsE fE cutoff clusters).getD i (Except.ok [])
          = Except.error e := by
        unfold dispatchFitsE
        rw [getD_map_lt (fun c => fE c (max 1 numModels) (buildSearchIndex c) cutoff)
          clusters i (Except.ok []) [] hi]
        exact hfe
      have hget : (dispatchFitsE fE cutoff clusters)[i] = Except.error e := by
        have h3 := List.getD_eq_getElem?_getD (dispatchFitsE fE cutoff clusters) i
          (Except.ok [])
        rw [List.getElem?_eq_getElem hlen] at h3
        rw [hgetd] at h3
        simpa using h3.symm
      rw [← hget]
      exact List.getElem_mem hlen
    obtain ⟨e2, h2⟩ := joinFutureResults_error _ ⟨e, hel⟩
    exact ⟨e2, by unfold objectDetectionE; rw [h2]⟩

/-- Counterexample to C3 as stated: a fitter that throws on cluster A does
not yield an empty candidate list for A with results for B — the whole call
aborts with the stored exception. -/
theorem spec_C3_counterexample :
    objectDetectionE fitterThrowing [cloudA, cloudB] (1/2) false [] = .error 7 := by
  norm_num [objectDetectionE, dispatchFitsE, joinFutureResults, fitterThrowing,
    cloudA, cloudB, buildSearchIndex, numModels]

/-- Witness for C3: a non-throwing fitter lifts to the pure call, and a
fitter throwing on cluster A aborts the call. -/
theorem spec_C3_amended_witness :
    objectDetectionE (fun pts k idx c => .ok (fitterConst pts k idx c))
        [cloudA] 1 false [] = .ok (objectDetection fitterConst [cloudA] 1 false [])
    ∧ ∃ e2, objectDetectionE fitterThrowing [cloudA] 1 false [] = .error e2 := by
  constructor
  · exact (spec_C3_amended (fun pts k idx c => .ok (fitterConst pts k idx c))
      fitterConst [cloudA] 1 false []).1 (fun _ _ _ _ => rfl)
  · exact (spec_C3_amended fitterThrowing fitterConst [cloudA] 1 false []).2 0 7
      (by norm_num) (by simp [fitterThrowing])

theorem mergeLoop_fits_le_one (f : Fitter) (cutoff thr : ℚ)
    (searches : List PointCloud)
    (hf : ∀ pts idx c, (f pts (max 1 numModels) idx c).length ≤ 1) :
    ∀ (fuel i : ℕ) (s : DetectionState), (∀ k, (s.fits k).length ≤ 1) →
      ∀ k, ((mergeLoop f cutoff thr searches fuel i s).fits k).length ≤ 1 := by
  intro fuel
  induction fuel with
  | zero => intro i s hs k; exact hs k
  | succ fuel ih =>
    intro i s hs k
    rw [mergeLoop]
    by_cases hc : i < s.clusters.length
    · rw [if_pos hc]
      by_cases hskip : s.rep i ≠ i ∨ s.fits i = []
      · rw [if_pos hskip]
        exact ih (i + 1) s hs k
      · rw [if_neg hskip]
        cases hscan : findMergeCandidate s thr ((s.fits i).headI)
            (s.clusters.length - (i + 1)) (i + 1) with
        | none => exact ih (i + 1) s hs k
        | some j =>
          refine ih i (mergeInto f cutoff searches s i j) ?_ k
          intro k2
          rcases mergeInto_fits_cases f cutoff searches s i j k2 with h | h | h
          · rw [h]; exact hf _ _ _
          · rw [h]; simp
          · rw [h]; exact hs k2
    · rw [if_neg hc]
      exact hs k

theorem mergeLoop_congr (f g : Fitter) (cutoff thr : ℚ)
    (searches : List PointCloud)
    (hagree : ∀ pts idx c,
      f pts (max 1 numModels) idx c = g pts (max 1 numModels) idx c) :
    ∀ (fuel i : ℕ) (s : DetectionState),
      mergeLoop f cutoff thr searches fuel i s
        = mergeLoop g cutoff thr searches fuel i s := by
  intro fuel
  induction fuel with
  | zero => intro i s; rfl
  | succ fuel ih =>
    intro i s
    rw [mergeLoop, mergeLoop]
    by_cases hc : i < s.clusters.length
    · rw [if_pos hc, if_pos hc]
      by_cases hskip : s.rep i ≠ i ∨ s.fits i = []
      · rw [if_pos hskip, if_pos hskip]
        exact ih (i + 1) s
      · rw [if_neg hskip, if_neg hskip]
        cases hscan : findMergeCandidate s thr ((s.fits i).headI)
            (s.clusters.length - (i + 1)) (i + 1) with
        | none => exact ih (i + 1) s
        | some j =>
          have hm : mergeInto f cutoff searches s i j
              = mergeInto g cutoff searches s i j := by
            unfold mergeInto
            dsimp only
            rw [hagree]
          show mergeLoop f cutoff thr searches fuel i (mergeInto f cutoff searches s i j)
            = mergeLoop g cutoff thr searches fuel i (mergeInto g cutoff searches s i j)
          rw [hm]
          exact ih i (mergeInto g cutoff searches s i j)
    · rw [if_neg hc, if_neg hc]

/-- Claim C9: every Fitter invocation of the call — both in the dispatch
phase and in the merge refit — requests exactly `max(1, 1) = 1` candidate
(`num_models` is fixed internally at 1 and `objectDetection` exposes no
parameter to change it), so the call depends only on the fitter's
one-candidate behavior, and if the fitter honors the requested bound then
every cluster's fit-result list has length at most 1 throughout. -/
theorem spec_C9 (f g : Fitter) (clusters : List PointCloud) (cutoff : ℚ)
    (pm : Bool) (res : List TabletopResult)
    (hlen : ∀ pts k idx c, (f pts k idx c).length ≤ k)
    (hagree : ∀ pts idx c, f pts 1 idx c = g pts 1 idx c) :
    max 1 numModels = 1
    ∧ (∀ k, ((initState f cutoff clusters).fits k).length ≤ 1)
    ∧ (∀ k, ((postMergeState f cutoff pm clusters).fits k).length ≤ 1)
    ∧ objectDetection f clusters cutoff pm res
        = objectDetection g clusters cutoff pm res := by
  have hf1 : ∀ pts idx c, (f pts (max 1 numModels) idx c).length ≤ 1 :=
    fun pts idx c => hlen pts (max 1 numModels) idx c
  have hinit : ∀ k, ((initState f cutoff clusters).fits k).length ≤ 1 := by
    intro k
    unfold initState DetectionState.fits dispatchFits
    by_cases hk : k < clusters.length
    · rw [getD_map_lt _ clusters k [] [] hk]
      exact hf1 _ _ _
    · rw [getD_eq_default_of_le _ k [] (by simpa using not_lt.mp hk)]
      simp
  refine ⟨rfl, hinit, ?_, ?_⟩
  · unfold postMergeState
    cases pm with
    | false => exact hinit
    | true =>
      simp only [if_true]
      exact mergeLoop_fits_le_one f cutoff fit_merge_threshold_
        (clusters.map buildSearchIndex) hf1 (mergeFuel clusters.length) 0
        (initState f cutoff clusters) hinit
  · have hdisp : dispatchFits f cutoff clusters = dispatchFits g cutoff clusters := by
      unfold dispatchFits
      exact List.map_congr_left fun c _ => hagree c (buildSearchIndex c) cutoff
    unfold objectDetection postMergeState initState
    rw [hdisp]
    cases pm with
    | false => rfl
    | true =>
      simp only [if_true]
      rw [mergeLoop_congr f g cutoff fit_merge_threshold_
        (clusters.map buildSearchIndex) (fun pts idx c => hagree pts idx c)]

/-- Witness for C9 with the length-respecting fitter that returns no
candidates. -/
theorem spec_C9_witness :
    max 1 numModels = 1
    ∧ (∀ k, ((postMergeState (fun _ _ _ _ => []) 1 true [cloudA]).fits k).length ≤ 1)
    ∧ objectDetection (fun _ _ _ _ => []) [cloudA] 1 true []
        = objectDetection (fun _ _ _ _ => []) [cloudA] 1 true [] := by
  have h := spec_C9 (fun _ _ _ _ => []) (fun _ _ _ _ => []) [cloudA] 1 true []
    (fun _ _ _ _ => by simp) (fun _ _ _ => rfl)
  exact ⟨h.1, h.2.2.1, h.2.2.2⟩

theorem initState_rep (f : Fitter) (cutoff : ℚ) (clusters : List PointCloud)
    (k : ℕ) : (initState f cutoff clusters).rep k = k := by
  unfold initState DetectionState.rep
  by_cases h : k < clusters.length
  · rw [List.getD_eq_getElem?_getD, List.getElem?_eq_getElem (by simpa using h)]
    simp
  · exact getD_eq_default_of_le _ k k (by simpa using not_lt.mp h)

theorem mergeLoop_rep_persistent (f : Fitter) (cutoff thr : ℚ)
    (searches : List PointCloud) :
    ∀ (fuel i : ℕ) (s : DetectionState) (k : ℕ), s.rep k ≠ k →
      (mergeLoop f cutoff thr searches fuel i s).rep k = s.rep k := by
  intro fuel
  induction fuel with
  | zero => intro i s k _; rfl
  | succ fuel ih =>
    intro i s k hk
    rw [mergeLoop]
    by_cases hc : i < s.clusters.length
    · rw [if_pos hc]
      by_cases hskip : s.rep i ≠ i ∨ s.fits i = []
      · rw [if_pos hskip]
        exact ih (i + 1) s k hk
      · rw [if_neg hskip]
        cases hscan : findMergeCandidate s thr ((s.fits i).headI)
            (s.clusters.length - (i + 1)) (i + 1) with
        | none => exact ih (i + 1) s k hk
        | some j =>
          have hqual := (findMergeCandidate_some_spec s thr _ _ _ j hscan).2.2.1
          have hkj : k ≠ j := by
            intro hkj
            subst hkj
            exact hk hqual.1
          have hrep : (mergeInto f cutoff searches s i j).rep k = s.rep k :=
            mergeInto_rep_ne f cutoff searches s i j k hkj
          have hk2 : (mergeInto f cutoff searches s i j).rep k ≠ k := by
            rw [hrep]; exact hk
          rw [ih i (mergeInto f cutoff searches s i j) k hk2, hrep]
    · rw [if_neg hc]

theorem mergeLoop_one_hop (f : Fitter) (cutoff thr : ℚ)
    (searches : List PointCloud) :
    ∀ (fuel i : ℕ) (s : DetectionState),
      s.cluster_model_indices.length = s.clusters.length →
      (∀ k, s.rep k ≠ k →
        s.rep (s.rep k) = s.rep k ∧ s.fits k = [] ∧ s.rep k < k ∧ s.rep k ≤ i) →
      ∀ k, (mergeLoop f cutoff thr searches fuel i s).rep k ≠ k →
        (mergeLoop f cutoff thr searches fuel i s).rep
            ((mergeLoop f cutoff thr searches fuel i s).rep k)
          = (mergeLoop f cutoff thr searches fuel i s).rep k
        ∧ (mergeLoop f cutoff thr searches fuel i s).fits k = []
        ∧ (mergeLoop f cutoff thr searches fuel i s).rep k < k := by
  intro fuel
  induction fuel with
  | zero =>
    intro i s _ hinv k hk
    exact ⟨(hinv k hk).1, (hinv k hk).2.1, (hinv k hk).2.2.1⟩
  | succ fuel ih =>
    intro i s hlen hinv k
    rw [mergeLoop]
    by_cases hc : i < s.clusters.length
    · rw [if_pos hc]
      by_cases hskip : s.rep i ≠ i ∨ s.fits i = []
      · rw [if_pos hskip]
        exact ih (i + 1) s hlen
          (fun k2 hk2 => ⟨(hinv k2 hk2).1, (hinv k2 hk2).2.1, (hinv k2 hk2).2.2.1,
            le_trans (hinv k2 hk2).2.2.2 (Nat.le_succ i)⟩) k
      · rw [if_neg hskip]
        push_neg at hskip
        cases hscan : findMergeCandidate s thr ((s.fits i).headI)
            (s.clusters.length - (i + 1)) (i + 1) with
        | none =>
          exact ih (i + 1) s hlen
            (fun k2 hk2 => ⟨(hinv k2 hk2).1, (hinv k2 hk2).2.1, (hinv k2 hk2).2.2.1,
              le_trans (hinv k2 hk2).2.2.2 (Nat.le_succ i)⟩) k
        | some j =>
          obtain ⟨hj1, hj2, hqual, -⟩ :=
            findMergeCandidate_some_spec s thr _ _ _ j hscan
          have hjn : j < s.clusters.length := by omega
          have hij : i ≠ j := by omega
          refine ih i (mergeInto f cutoff searches s i j)
            (by rw [mergeInto_indices_length, mergeInto_clusters_length]; exact hlen)
            ?_ k
          intro k2 hk2
          by_cases hk2j : k2 = j
          · subst hk2j
            have hrepj : (mergeInto f cutoff searches s i k2).rep k2 = i :=
              mergeInto_rep_merged f cutoff searches s i k2 (by omega)
            refine ⟨?_, mergeInto_fits_merged f cutoff searches s i k2 hij, ?_⟩
            · rw [hrepj, mergeInto_rep_ne f cutoff searches s i k2 i hij, hskip.1]
            · rw [hrepj]; omega
          · have hrep : (mergeInto f cutoff searches s i j).rep k2 = s.rep k2 :=
              mergeInto_rep_ne f cutoff searches s i j k2 hk2j
            have hsk2 : s.rep k2 ≠ k2 := by rw [← hrep]; exact hk2
            obtain ⟨h1, h2, h3, h4⟩ := hinv k2 hsk2
            have hrj : s.rep k2 ≠ j := by omega
            have hk2i : k2 ≠ i := by
              intro hk2i
              subst hk2i
              exact hsk2 hskip.1
            refine ⟨?_, ?_, ?_⟩
            · rw [hrep, mergeInto_rep_ne f cutoff searches s i j (s.rep k2) hrj]
              exact h1
            · exact (mergeInto_fits_ne f cutoff searches s i j k2 hk2i hk2j).trans h2
            · rw [hrep]; omega
    · rw [if_neg hc]
      intro hk
      exact ⟨(hinv k hk).1, (hinv k hk).2.1, (hinv k hk).2.2.1⟩

/-- Claim C8: once `representative[j]` is set to some `i ≠ j` it is never
changed by the rest of the merge loop; and in the post-merge state of a
call, any merged-away cluster `k` points to a strictly smaller index that
is itself unmerged (`representative` chains resolve in one hop — the merge
target was unmerged at merge time) and has a cleared fit result, while
`representative[k] == k` for every surviving cluster is the initial state
preserved. -/
theorem spec_C8 (f : Fitter) (cutoff thr : ℚ) (searches : List PointCloud)
    (fuel i : ℕ) (s : DetectionState) (clusters : List PointCloud) (pm : Bool) :
    (∀ k, s.rep k ≠ k →
      (mergeLoop f cutoff thr searches fuel i s).rep k = s.rep k)
    ∧ (∀ k, (postMergeState f cutoff pm clusters).rep k ≠ k →
        (postMergeState f cutoff pm clusters).rep
            ((postMergeState f cutoff pm clusters).rep k)
          = (postMergeState f cutoff pm clusters).rep k
        ∧ (postMergeState f cutoff pm clusters).fits k = []
        ∧ (postMergeState f cutoff pm clusters).rep k < k) := by
  constructor
  · intro k hk
    exact mergeLoop_rep_persistent f cutoff thr searches fuel i s k hk
  · unfold postMergeState
    cases pm with
    | false =>
      intro k hk
      exact absurd (initState_rep f cutoff clusters k) hk
    | true =>
      simp only [if_true]
      exact mergeLoop_one_hop f cutoff fit_merge_threshold_
        (clusters.map buildSearchIndex) (mergeFuel clusters.length) 0
        (initState f cutoff clusters) (by simp [initState, dispatchFits])
        (fun k hk => absurd (initState_rep f cutoff clusters k) hk)

/-- Witness for C8: a concrete already-merged representative entry survives
an (empty) merge loop unchanged, and in the concrete merged run of
`fitterMoving` cluster 1 was absorbed by cluster 0: its representative
resolves in one hop to the unmerged cluster 0 and its fits are cleared. -/
theorem spec_C8_witness :
    ((mergeLoop fitterMoving 1 1 [] 1 0 ⟨[], [], [0, 0]⟩).rep 1
      = (⟨[], [], [0, 0]⟩ : DetectionState).rep 1)
    ∧ ((postMergeState fitterMoving (1/2) true [cloudA, cloudB, cloudC]).rep
          ((postMergeState fitterMoving (1/2) true [cloudA, cloudB, cloudC]).rep 1)
        = (postMergeState fitterMoving (1/2) true [cloudA, cloudB, cloudC]).rep 1
       ∧ (postMergeState fitterMoving (1/2) true [cloudA, cloudB, cloudC]).fits 1 = []
       ∧ (postMergeState fitterMoving (1/2) true [cloudA, cloudB, cloudC]).rep 1 < 1) := by
  have hpost : (postMergeState fitterMoving (1/2) true [cloudA, cloudB, cloudC]).rep 1
      ≠ 1 := by
    have h1 : (postMergeState fitterMoving (1/2)
        true [cloudA, cloudB, cloudC]).cluster_model_indices = [0, 0, 0] := by
      norm_num [postMergeState, mergeFuel, mergeLoop, initState, dispatchFits,
        findMergeCandidate, qualifiesForMerge, mergeInto, fitterMoving, cloudA,
        cloudB, cloudC, poseAt, DetectionState.rep, DetectionState.fits,
        fitCloseEnough, fitDistanceSq_eq, buildSearchIndex, numModels,
        fit_merge_threshold_]
      rfl
    rw [DetectionState.rep, h1]
    decide
  exact ⟨(spec_C8 fitterMoving 1 1 [] 1 0 ⟨[], [], [0, 0]⟩ [] false).1 1 (by decide),
    (spec_C8 fitterMoving (1/2) 1 [] 1 0 ⟨[], [], [0, 0]⟩
      [cloudA, cloudB, cloudC] true).2 1 hpost⟩

/-- Claim C4: the confidence transform `1 - (1 - s)^2` maps 0 to 0 and
1 to 1, is strictly increasing on `[0,1]`, and maps `[0,1]` into `[0,1]`. -/
theorem spec_C4 :
    getConfidence 0 = 0 ∧ getConfidence 1 = 1
    ∧ (∀ s t : ℚ, 0 ≤ s → s < t → t ≤ 1 → getConfidence s < getConfidence t)
    ∧ (∀ s : ℚ, 0 ≤ s → s ≤ 1 → 0 ≤ getConfidence s ∧ getConfidence s ≤ 1) := by
  refine ⟨by norm_num [getConfidence], by norm_num [getConfidence], ?_, ?_⟩
  · intro s t hs hst ht1
    unfold getConfidence
    nlinarith
  · intro s h0 h1
    unfold getConfidence
    constructor <;> nlinarith

/-- Witness for C4 at `s = 0`, `t = 1`. -/
theorem spec_C4_witness :
    getConfidence 0 < getConfidence 1
    ∧ 0 ≤ getConfidence 0 ∧ getConfidence 0 ≤ 1 :=
  ⟨spec_C4.2.2.1 0 1 le_rfl zero_lt_one le_rfl,
   (spec_C4.2.2.2 0 le_rfl zero_le_one).1,
   (spec_C4.2.2.2 0 le_rfl zero_le_one).2⟩

/-- Claim C1: `objectDetection` appends exactly the assembled results of the
post-merge state; an entry for index `i` is emitted iff
`representative[i] == i`, cluster `i`'s fit result is non-empty, and the
confidence computed from the top candidate's score is at least the cutoff;
each entry carries that candidate's model id and pose, the computed
confidence, cluster `i`'s (possibly merged) point set, and `i` as its
original index; and entries are in strictly ascending original-index
order. -/
theorem spec_C1 (fitter : Fitter) (clusters : List PointCloud) (cutoff : ℚ)
    (pm : Bool) (results : List TabletopResult) :
    ((objectDetection fitter clusters cutoff pm results).1
      = results ++ assembleResults cutoff (postMergeState fitter cutoff pm clusters))
    ∧ (∀ (s : DetectionState) (i : ℕ),
        (∃ r ∈ assembleResults cutoff s, r.cloud_index_ = i)
          ↔ i < s.cluster_model_indices.length ∧ s.rep i = i ∧ s.fits i ≠ []
            ∧ cutoff ≤ getConfidence ((s.fits i).headI).getScore)
    ∧ (∀ (s : DetectionState) (r : TabletopResult), r ∈ assembleResults cutoff s →
        r.object_id_ = ((s.fits r.cloud_index_).headI).getModelId
        ∧ r.pose_ = ((s.fits r.cloud_index_).headI).getPose
        ∧ r.confidence_ = getConfidence ((s.fits r.cloud_index_).headI).getScore
        ∧ r.cloud_ = s.clusters.getD r.cloud_index_ [])
    ∧ (∀ s : DetectionState,
        List.Pairwise (· < ·) ((assembleResults cutoff s).map (·.cloud_index_))) := by
  refine ⟨rfl, ?_, ?_, ?_⟩
  · intro s i
    constructor
    · rintro ⟨r, hm, rfl⟩
      rw [mem_assembleResults] at hm
      obtain ⟨hlt, he⟩ := hm
      rw [assembleEntry_eq_some] at he
      exact ⟨hlt, he.1, he.2.1, he.2.2.1⟩
    · rintro ⟨hlt, h1, h2, h3⟩
      refine ⟨{ pose_ := ((s.fits i).headI).getPose
                confidence_ := getConfidence ((s.fits i).headI).getScore
                object_id_ := ((s.fits i).headI).getModelId
                cloud_ := s.clusters.getD i []
                cloud_index_ := i }, ?_, rfl⟩
      rw [mem_assembleResults]
      refine ⟨hlt, ?_⟩
      rw [assembleEntry_eq_some]
      exact ⟨h1, h2, h3, rfl⟩
  · intro s r hm
    rw [mem_assembleResults] at hm
    obtain ⟨-, he⟩ := hm
    rw [assembleEntry_eq_some] at he
    obtain ⟨-, -, -, hr⟩ := he
    exact ⟨congrArg TabletopResult.object_id_ hr, congrArg TabletopResult.pose_ hr,
      congrArg TabletopResult.confidence_ hr, congrArg TabletopResult.cloud_ hr⟩
  · intro s
    exact pairwise_lt_map_filterMap (assembleEntry cutoff s) (·.cloud_index_)
      (assembleEntry_index cutoff s) (List.range s.cluster_model_indices.length)
      (List.pairwise_lt_range _)

/-- Witness for C1 on the concrete state `stateW` with cutoff 0: index 1 is
emitted and the emitted indices are strictly ascending. -/
theorem spec_C1_witness :
    (∃ r ∈ assembleResults 0 stateW, r.cloud_index_ = 1)
    ∧ List.Pairwise (· < ·) ((assembleResults 0 stateW).map (·.cloud_index_)) := by
  refine ⟨((spec_C1 fitterConst [] 0 false []).2.1 stateW 1).mpr ?_,
    (spec_C1 fitterConst [] 0 false []).2.2.2 stateW⟩
  refine ⟨by simp [stateW], by simp [stateW, DetectionState.rep],
    by simp [stateW, DetectionState.fits], ?_⟩
  norm_num [stateW, DetectionState.fits, fitW, getConfidence]

/-- Claim C5 (amended): with `perform_fit_merge = true`, PROVIDED the
fitter never returns an empty candidate list and its top candidate's pose
position depends only on the spatial-index argument (so a refit of a merged
cluster keeps its best-fit position), if two clusters' best-fit pose
positions lie within the merge threshold under the planar metric then the
output never contains both clusters as separate entries. Without the
proviso the statement is false (see the counterexample): a refit may move
the merged cluster's pose away before later clusters are compared. -/
theorem spec_C5_amended (f : Fitter) (clusters : List PointCloud) (cutoff : ℚ)
    (i j : ℕ)
    (hne : ∀ pts k idx c, f pts k idx c ≠ [])
    (hpos : ∀ pts1 pts2 k1 k2 c1 c2 idx,
      ((f pts1 k1 idx c1).headI).getPose.position
        = ((f pts2 k2 idx c2).headI).getPose.position)
    (hij : i ≠ j)
    (hclose : fitCloseEnough (((dispatchFits f cutoff clusters).getD i []).headI)
      (((dispatchFits f cutoff clusters).getD j []).headI) fit_merge_threshold_) :
    ¬((∃ r ∈ (objectDetection f clusters cutoff true []).1, r.cloud_index_ = i)
      ∧ (∃ r ∈ (objectDetection f clusters cutoff true []).1, r.cloud_index_ = j)) := by
  rintro ⟨⟨ri, hri, hrii⟩, ⟨rj, hrj, hrjj⟩⟩
  have hpost : postMergeState f cutoff true clusters
      = mergeLoop f cutoff fit_merge_threshold_ (clusters.map buildSearchIndex)
          (mergeFuel clusters.length) 0 (initState f cutoff clusters) := rfl
  have hri2 : ri ∈ assembleResults cutoff (postMergeState f cutoff true clusters) := by
    simpa [objectDetection] using hri
  have hrj2 : rj ∈ assembleResults cutoff (postMergeState f cutoff true clusters) := by
    simpa [objectDetection] using hrj
  have hfits0 : ∀ k, k < clusters.length →
      (initState f cutoff clusters).fits k
        = f (clusters.getD k []) (max 1 numModels)
            (buildSearchIndex (clusters.getD k [])) cutoff := by
    intro k hk
    show (dispatchFits f cutoff clusters).getD k [] = _
    unfold dispatchFits
    exact getD_map_lt _ clusters k [] [] hk
  have hsearch : ∀ k, k < clusters.length →
      (clusters.map buildSearchIndex).getD k []
        = buildSearchIndex (clusters.getD k []) := by
    intro k hk
    exact getD_map_lt _ clusters k [] [] hk
  have hU0 : unmergedCount (initState f cutoff clusters) ≤ clusters.length := by
    unfold unmergedCount
    calc ((List.range (initState f cutoff clusters).clusters.length).filter
            (fun k => (initState f cutoff clusters).cluster_model_indices.getD k k
              = k)).length
        ≤ (List.range (initState f cutoff clusters).clusters.length).length :=
          List.length_filter_le _ _
      _ = clusters.length := by
          show (List.range clusters.length).length = clusters.length
          exact List.length_range _
  have hfuel : loopMeasure (initState f cutoff clusters) 0
      < mergeFuel clusters.length := by
    unfold loopMeasure mergeFuel
    show clusters.length * unmergedCount (initState f cutoff clusters)
        + (clusters.length - 0) < clusters.length * clusters.length
        + clusters.length + 1
    have hmul : clusters.length * unmergedCount (initState f cutoff clusters)
        ≤ clusters.length * clusters.length := Nat.mul_le_mul_left _ hU0
    omega
  obtain ⟨hlen3t, hcant, hsept⟩ := mergeLoop_separation f cutoff
    fit_merge_threshold_ (clusters.map buildSearchIndex) clusters.length hne hpos
    (mergeFuel clusters.length) 0 (initState f cutoff clusters) hfuel rfl
    (by show (dispatchFits f cutoff clusters).length = clusters.length
        unfold dispatchFits
        exact List.length_map _ _)
    (by show (List.range clusters.length).length = clusters.length
        exact List.length_range _)
    (by intro k hk hrk
        rw [hfits0 k hk]
        exact hne _ _ _ _)
    (by intro k hk hfk
        rw [hfits0 k hk, hsearch k hk]
        exact hpos _ _ _ _ _ _ _)
    (by intro a b ha
        exact absurd ha (Nat.not_lt_zero a))
  rw [← hpost] at hlen3t hcant hsept
  rw [mem_assembleResults] at hri2 hrj2
  obtain ⟨hilt, hie⟩ := hri2
  obtain ⟨hjlt, hje⟩ := hrj2
  rw [assembleEntry_eq_some] at hie hje
  rw [hrii] at hilt hie
  rw [hrjj] at hjlt hje
  have hin : i < clusters.length := by omega
  have hjn : j < clusters.length := by omega
  have hdisp_pos : ∀ k, k < clusters.length →
      (((dispatchFits f cutoff clusters).getD k []).headI).getPose.position
        = ((f ((clusters.map buildSearchIndex).getD k []) (max 1 numModels)
            ((clusters.map buildSearchIndex).getD k [])
            cutoff).headI).getPose.position := by
    intro k hk
    rw [show (dispatchFits f cutoff clusters).getD k []
        = f (clusters.getD k []) (max 1 numModels)
            (buildSearchIndex (clusters.getD k [])) cutoff from by
      unfold dispatchFits
      exact getD_map_lt _ clusters k [] [] hk]
    rw [← hsearch k hk]
    exact hpos _ _ _ _ _ _ _
  have hti : (((postMergeState f cutoff true clusters).fits i).headI).getPose.position
      = (((dispatchFits f cutoff clusters).getD i []).headI).getPose.position := by
    rw [hcant i hin hie.2.1, hdisp_pos i hin]
  have htj : (((postMergeState f cutoff true clusters).fits j).headI).getPose.position
      = (((dispatchFits f cutoff clusters).getD j []).headI).getPose.position := by
    rw [hcant j hjn hje.2.1, hdisp_pos j hjn]
  rcases Nat.lt_or_ge i j with hlt | hge
  · exact hsept i j hlt hjn hie.1 hje.1
      ((fitCloseEnough_congr_pos fit_merge_threshold_ hti htj).mpr hclose)
  · have hlt : j < i := lt_of_le_of_ne hge (Ne.symm hij)
    have hc2 : fitCloseEnough (((dispatchFits f cutoff clusters).getD j []).headI)
        (((dispatchFits f cutoff clusters).getD i []).headI) fit_merge_threshold_ :=
      (fitCloseEnough_symm _ _ _).mp hclose
    exact hsept j i hlt hin hje.1 hie.1
      ((fitCloseEnough_congr_pos fit_merge_threshold_ htj hti).mpr hc2)

/-- Counterexample to C5 as stated: with `fitterJumping`, clusters A and C
best-fit within the merge threshold of each other (positions 0 and 0.015,
threshold 0.02), but A first absorbs B and its refit jumps to position 1,
far from C — so the output contains BOTH cluster 0 (the merged A++B) and
cluster 2 as separate entries. -/
theorem spec_C5_counterexample :
    fitCloseEnough
      (((dispatchFits fitterJumping (1/2) [cloudA, cloudB, cloudC]).getD 0 []).headI)
      (((dispatchFits fitterJumping (1/2) [cloudA, cloudB, cloudC]).getD 2 []).headI)
      fit_merge_threshold_
    ∧ ((objectDetection fitterJumping [cloudA, cloudB, cloudC] (1/2) true []).1).map
        (fun r => r.cloud_index_) = [0, 2] := by
  constructor
  · norm_num [dispatchFits, fitterJumping, cloudA, cloudB, cloudC, poseAt,
      buildSearchIndex, numModels, fitCloseEnough, fitDistanceSq_eq,
      fit_merge_threshold_]
  · have hpost : postMergeState fitterJumping (1/2) true [cloudA, cloudB, cloudC]
        = ⟨[[⟨0,0,0⟩, ⟨1,0,0⟩], [⟨1,0,0⟩], [⟨2,0,0⟩]],
           [[⟨5, 9/10, poseAt 1⟩], [], [⟨5, 9/10, poseAt (3/200)⟩]],
           [0, 0, 2]⟩ := by
      show mergeLoop fitterJumping (1/2) fit_merge_threshold_ [cloudA, cloudB, cloudC]
          13 0 (initState fitterJumping (1/2) [cloudA, cloudB, cloudC]) = _
      rw [show (13:ℕ) = 12 + 1 from rfl, mergeLoop]
      norm_num [initState, dispatchFits, findMergeCandidate, qualifiesForMerge,
        mergeInto, fitterJumping, cloudA, cloudB, cloudC, poseAt,
        DetectionState.rep, DetectionState.fits, fitCloseEnough, fitDistanceSq_eq,
        buildSearchIndex, numModels, fit_merge_threshold_]
      rw [show (12:ℕ) = 11 + 1 from rfl, mergeLoop]
      norm_num [(by decide : List.range 3 = [0, 1, 2]), findMergeCandidate,
        qualifiesForMerge, mergeInto, fitterJumping, cloudA, cloudB, cloudC, poseAt,
        DetectionState.rep, DetectionState.fits, fitCloseEnough, fitDistanceSq_eq,
        buildSearchIndex, numModels, fit_merge_threshold_]
      rw [show (11:ℕ) = 10 + 1 from rfl, mergeLoop]
      norm_num [findMergeCandidate, qualifiesForMerge, mergeInto, fitterJumping,
        cloudA, cloudB, cloudC, poseAt, DetectionState.rep, DetectionState.fits,
        fitCloseEnough, fitDistanceSq_eq, buildSearchIndex, numModels,
        fit_merge_threshold_]
      rw [show (10:ℕ) = 9 + 1 from rfl, mergeLoop]
      norm_num [findMergeCandidate, qualifiesForMerge, mergeInto, fitterJumping,
        cloudA, cloudB, cloudC, poseAt, DetectionState.rep, DetectionState.fits,
        fitCloseEnough, fitDistanceSq_eq, buildSearchIndex, numModels,
        fit_merge_threshold_]
      rw [show (9:ℕ) = 8 + 1 from rfl, mergeLoop]
      norm_num [poseAt]
    show (assembleResults (1/2)
        (postMergeState fitterJumping (1/2) true [cloudA, cloudB, cloudC])).map
          (fun r => r.cloud_index_) = [0, 2]
    rw [hpost]
    norm_num [assembleResults, assembleEntry, (by decide : List.range 3 = [0, 1, 2]),
      List.filterMap_cons, List.filterMap_nil,
      DetectionState.rep, DetectionState.fits, getConfidence, poseAt]

/-- Witness for C5 (amended) with the constant fitter on two clusters whose
best fits coincide. -/
theorem spec_C5_amended_witness :
    ¬((∃ r ∈ (objectDetection fitterConst [cloudA, cloudB] 2 true []).1,
        r.cloud_index_ = 0)
      ∧ (∃ r ∈ (objectDetection fitterConst [cloudA, cloudB] 2 true []).1,
        r.cloud_index_ = 1)) :=
  spec_C5_amended fitterConst [cloudA, cloudB] 2 0 1
    (fun _ _ _ _ => by simp [fitterConst])
    (fun _ _ _ _ _ _ _ => rfl)
    (by decide)
    (by norm_num [dispatchFits, fitterConst, cloudA, cloudB, poseAt,
      buildSearchIndex, numModels, fitCloseEnough, fitDistanceSq_eq,
      fit_merge_threshold_])

/-- Claim C6: the inner merge scan accepts an inner index `j` only when
`representative[j] == j` and cluster `j`'s fit result is non-empty; its
distance test compares the planar Euclidean distance
`sqrt((x_i - x_j)^2 + (y_i - y_j)^2)` between the two best-fit pose
positions strictly against the threshold — only x and y enter, z and
orientation are ignored — and the merge distance threshold defaults
to `0.02 = 1/50`. -/
theorem spec_C6 :
    (∀ (s : DetectionState) (thr : ℚ) (fi : ModelFitInfo) (steps start j : ℕ),
      findMergeCandidate s thr fi steps start = some j →
      s.rep j = j ∧ s.fits j ≠ []
        ∧ fitCloseEnough fi ((s.fits j).headI) thr)
    ∧ (∀ (m1 m2 : ModelFitInfo) (thr : ℚ),
        fitCloseEnough m1 m2 thr
          ↔ Real.sqrt ((fitDistanceSq m1 m2 : ℚ) : ℝ) < (thr : ℝ))
    ∧ (∀ (m1 m2 : ModelFitInfo) (z1 z2 : ℚ) (q1 q2 : Quat4),
        fitDistanceSq
          { m1 with pose := { position := { m1.pose.position with z := z1 }
                              orientation := q1 } }
          { m2 with pose := { position := { m2.pose.position with z := z2 }
                              orientation := q2 } }
          = fitDistanceSq m1 m2)
    ∧ fit_merge_threshold_ = 1 / 50 := by
  refine ⟨?_, ?_, ?_, by norm_num [fit_merge_threshold_]⟩
  · intro s thr fi steps start j h
    exact (findMergeCandidate_some_spec s thr fi steps start j h).2.2.1
  · intro m1 m2 thr
    constructor
    · rintro ⟨hpos, hlt⟩
      rw [Real.sqrt_lt' (by exact_mod_cast hpos)]
      have hsq : ((thr : ℝ)) ^ 2 = ((thr * thr : ℚ) : ℝ) := by push_cast; ring
      rw [hsq]
      exact_mod_cast hlt
    · intro h
      by_cases hpos : 0 < thr
      · refine ⟨hpos, ?_⟩
        rw [Real.sqrt_lt' (by exact_mod_cast hpos)] at h
        have hsq : ((thr : ℝ)) ^ 2 = ((thr * thr : ℚ) : ℝ) := by push_cast; ring
        rw [hsq] at h
        exact_mod_cast h
      · exfalso
        have h0 : (thr : ℝ) ≤ 0 := by exact_mod_cast not_lt.mp hpos
        have hnn := Real.sqrt_nonneg ((fitDistanceSq m1 m2 : ℚ) : ℝ)
        linarith
  · intro m1 m2 z1 z2 q1 q2
    rw [fitDistanceSq_eq, fitDistanceSq_eq]

/-- Witness for C6: the scan on `stateW` returns index 1, and the theorem
yields the acceptance conditions there. -/
theorem spec_C6_witness :
    stateW.rep 1 = 1 ∧ stateW.fits 1 ≠ []
      ∧ fitCloseEnough fitW ((stateW.fits 1).headI) 1 := by
  have hscan : findMergeCandidate stateW 1 fitW 1 1 = some 1 := by
    simp [findMergeCandidate, qualifiesForMerge, DetectionState.rep,
      DetectionState.fits, stateW, fitW, fitCloseEnough, fitDistanceSq_eq, poseAt]
  exact spec_C6.1 stateW 1 fitW 1 1 1 hscan

/-- Claim C7: with `perform_fit_merge = false` the clusters are returned
exactly as passed in — no points are appended to or removed from any
cluster by the call. -/
theorem spec_C7 (fitter : Fitter) (clusters : List PointCloud) (cutoff : ℚ)
    (results : List TabletopResult) :
    (objectDetection fitter clusters cutoff false results).2 = clusters := by
  simp [objectDetection, postMergeState, initState]

/-- Claim C10: `objectDetection` only appends to its `results` parameter;
entries already present are preserved in front of the new detections, and
the output is empty only when the caller passed an empty container and
nothing was detected. -/
theorem spec_C10 (fitter : Fitter) (clusters : List PointCloud) (cutoff : ℚ)
    (pm : Bool) (results : List TabletopResult) :
    ((objectDetection fitter clusters cutoff pm results).1
      = results ++ (objectDetection fitter clusters cutoff pm []).1)
    ∧ ((objectDetection fitter clusters cutoff pm results).1 = []
        ↔ results = [] ∧ (objectDetection fitter clusters cutoff pm []).1 = []) := by
  constructor
  · simp [objectDetection]
  · simp [objectDetection]

end Tabletop
